import Mathlib

/-!
Verification of the configuration-resolution and command-synthesis pipeline of
`scripts/build_train_cmd.py`.

The Python script merges three configuration layers (built-in profile defaults,
a flattened TOML file layer, environment-variable overrides), applies
auto-correction rules (alpha/rank sync, bucket-bound consistency), validates
the result, and deterministically synthesizes an `accelerate launch` command.

This file is a shallow embedding of that pipeline:
* Python dict values become the tagged union `CVal` (int | float | str), with
  floats modelled as exact rationals (every float literal occurring in the
  program is a short decimal, and Python's `repr` of such a double prints the
  same short decimal, so the rational model agrees with the observable
  formatting behaviour of the script).
* Python dicts become duplicate-free association lists (`Config`) with
  `cfgGet` / `cfgInsert` / `cfgUpdate` mirroring `d.get`, `d[k] = v`, and
  `d.update`.
* Fallible Python code (a `TypeError` on comparing a string with a number,
  a `KeyError` on direct indexing) is modelled with `Option`.
* The file system and the process environment are explicit parameters
  (`String → Bool` existence predicate, `String → Option String` environment).
-/

/-- A scalar configuration value: Python `int`, `float`, or `str`.
Floats are modelled as exact rationals (see the module docstring). -/
inductive CVal where
  | int (n : Int)
  | float (q : Rat)
  | str (s : String)
deriving DecidableEq, Repr

/-- A Python dict of configuration values, as an association list.
All dicts in the modelled program are built by `cfgInsert` / `cfgUpdate`
and therefore have duplicate-free keys. -/
abbrev Config := List (String × CVal)

/-- `d.get(k)`: first binding of `k`, if any. -/
def cfgGet : Config → String → Option CVal
  | [], _ => none
  | (k', v) :: rest, k => if k' = k then some v else cfgGet rest k

/-- Remove every binding of `k` (helper for `cfgInsert`). -/
def cfgErase : Config → String → Config
  | [], _ => []
  | (k', v) :: rest, k => if k' = k then cfgErase rest k else (k', v) :: cfgErase rest k

/-- `d[k] = v`: bind `k` to `v`, removing any previous binding. -/
def cfgInsert (c : Config) (k : String) (v : CVal) : Config :=
  (k, v) :: cfgErase c k

/-- `d.update(o)`: repeated assignment of every binding of `o`, in order. -/
def cfgUpdate : Config → Config → Config
  | c, [] => c
  | c, (k, v) :: rest => cfgUpdate (cfgInsert c k v) rest

/-- `k in d`. -/
def cfgHasKey (c : Config) (k : String) : Bool :=
  (cfgGet c k).isSome

/-- `d.get(k, default)`. -/
def cfgGetD (c : Config) (k : String) (d : CVal) : CVal :=
  (cfgGet c k).getD d

/-- The keys of a layer are duplicate-free (true of every Python dict). -/
def cfgNodup (c : Config) : Prop := (c.map Prod.fst).Nodup

instance (c : Config) : Decidable (cfgNodup c) := by
  unfold cfgNodup; infer_instance

theorem cfgGet_erase_ne (c : Config) (k k' : String) (h : k' ≠ k) :
    cfgGet (cfgErase c k') k = cfgGet c k := by
  induction c with
  | nil => rfl
  | cons p rest ih =>
    rcases p with ⟨pk, pv⟩
    have hks : k ≠ k' := Ne.symm h
    by_cases hpk' : pk = k'
    · have hpk : ¬ pk = k := by rw [hpk']; exact h
      simp [cfgErase, hpk', cfgGet, hpk, ih, h, hks]
    · by_cases hpk : pk = k
      · simp [cfgErase, hpk', cfgGet, hpk, h, hks]
      · simp [cfgErase, hpk', cfgGet, hpk, ih, h, hks]

theorem cfgGet_insert_self (c : Config) (k : String) (v : CVal) :
    cfgGet (cfgInsert c k v) k = some v := by
  simp [cfgInsert, cfgGet]

theorem cfgGet_insert_ne (c : Config) (k k' : String) (v : CVal) (h : k' ≠ k) :
    cfgGet (cfgInsert c k' v) k = cfgGet c k := by
  simp only [cfgInsert, cfgGet, if_neg h]
  exact cfgGet_erase_ne c k k' h

theorem cfgGet_eq_none_of_not_mem (c : Config) (k : String)
    (h : k ∉ c.map Prod.fst) : cfgGet c k = none := by
  induction c with
  | nil => rfl
  | cons p rest ih =>
    simp only [List.map_cons, List.mem_cons] at h
    push_neg at h
    have hne : ¬ p.1 = k := fun hh => h.1 hh.symm
    simp [cfgGet, hne, ih h.2]

theorem cfgGet_update_of_not_hasKey (c o : Config) (k : String)
    (h : cfgHasKey o k = false) : cfgGet (cfgUpdate c o) k = cfgGet c k := by
  induction o generalizing c with
  | nil => rfl
  | cons p rest ih =>
    rcases p with ⟨k₁, v₁⟩
    have hne : k₁ ≠ k := by
      intro hk
      simp [cfgHasKey, cfgGet, hk] at h
    have hrest : cfgHasKey rest k = false := by
      simp [cfgHasKey, cfgGet, hne] at h
      simp [cfgHasKey, h]
    simp only [cfgUpdate]
    rw [ih _ hrest, cfgGet_insert_ne _ _ _ _ hne]

theorem cfgGet_update_of_get (c o : Config) (k : String) (v : CVal)
    (hnd : cfgNodup o) (h : cfgGet o k = some v) :
    cfgGet (cfgUpdate c o) k = some v := by
  induction o generalizing c with
  | nil => simp [cfgGet] at h
  | cons p rest ih =>
    rcases p with ⟨k₁, v₁⟩
    simp only [cfgNodup, List.map_cons, List.nodup_cons] at hnd
    by_cases hk : k₁ = k
    · subst hk
      simp only [cfgGet, if_true, eq_self_iff_true] at h
      have hrest : cfgHasKey rest k₁ = false := by
        have := cfgGet_eq_none_of_not_mem rest k₁ hnd.1
        simp [cfgHasKey, this]
      simp only [cfgUpdate]
      rw [cfgGet_update_of_not_hasKey _ _ _ hrest, cfgGet_insert_self, h]
    · simp only [cfgGet, if_neg hk] at h
      simp only [cfgUpdate]
      exact ih _ hnd.2 h

theorem cfgHasKey_iff_get_isSome (c : Config) (k : String) :
    cfgHasKey c k = true ↔ (cfgGet c k).isSome = true := Iff.rfl

/-! ## Python value semantics

Truthiness, numeric coercion/comparison, `str()` formatting, and `int()` /
`float()` parsing of strings, restricted to the value shapes the script
produces (decimal literals; no underscores, `inf`, or `nan`). -/

/-- Python truthiness of a scalar: `0`, `0.0` and `""` are falsy. -/
def CVal.truthy : CVal → Bool
  | .int n => n != 0
  | .float q => q != 0
  | .str s => s != ""

/-- View a value as a number, as Python's comparison operators do;
a string is not a number (comparing it with one raises `TypeError`). -/
def CVal.toRat : CVal → Option Rat
  | .int n => some (n : Rat)
  | .float q => some q
  | .str _ => none

/-- Python `x > b` for an `int` literal `b`; `none` models `TypeError`. -/
def pyGt (v : CVal) (b : Int) : Option Bool :=
  (CVal.toRat v).map (fun q => decide ((b : Rat) < q))

/-- Python `==` on scalars: cross-type numeric equality, string equality,
and `False` between a string and a number. -/
def pyEq : CVal → CVal → Bool
  | .int a, .int b => a == b
  | .int a, .float b => (a : Rat) == b
  | .float a, .int b => a == (b : Rat)
  | .float a, .float b => a == b
  | .str a, .str b => a == b
  | .str _, _ => false
  | _, .str _ => false

/-- Decimal digits of the fractional part `r / den`, by long division
(`fuel` bounds the number of digits; every float in the program is a
terminating decimal, so the division always ends within the fuel). -/
def fracDigits : Nat → Nat → Nat → String
  | 0, _, _ => ""
  | _ + 1, 0, _ => ""
  | fuel + 1, r, den =>
    let r10 := r * 10
    toString (r10 / den) ++ fracDigits fuel (r10 % den) den

/-- Python `repr`/`str` of a float, for terminating decimals: sign, integer
part, a dot, and the exact fractional digits (`"1.0"`, `"0.05"`, `"0.0001"`). -/
def pyFloatRepr (q : Rat) : String :=
  let sign := if q < 0 then "-" else ""
  let num := q.num.natAbs
  let den := q.den
  let frac := fracDigits 30 (num % den) den
  sign ++ toString (num / den) ++ "." ++ (if frac = "" then "0" else frac)

/-- Python `str()` of a scalar, as used by the f-strings of the script. -/
def CVal.toStr : CVal → String
  | .int n => toString n
  | .float q => pyFloatRepr q
  | .str s => s

/-- Value of a nonempty digit string (helper for the parsers). -/
def digitsVal (cs : List Char) : Nat :=
  cs.foldl (fun a c => a * 10 + (c.toNat - 48)) 0

/-- Parse a nonempty all-digit character list. -/
def parseDigits (cs : List Char) : Option Nat :=
  if cs ≠ [] ∧ cs.all Char.isDigit then some (digitsVal cs) else none

/-- Drop leading whitespace characters. -/
def dropSpaces : List Char → List Char
  | [] => []
  | c :: rest => if c.isWhitespace then dropSpaces rest else c :: rest

/-- Python `s.strip()`, as a character list. -/
def pyStrip (s : String) : List Char :=
  (dropSpaces (dropSpaces s.data).reverse).reverse

/-- Split a character list on every occurrence of a separator character
(`str.split(sep)` semantics: `n` separators yield `n+1` pieces). -/
def splitOnChar (sep : Char) : List Char → List (List Char)
  | [] => [[]]
  | c :: rest =>
    let r := splitOnChar sep rest
    if c == sep then [] :: r
    else
      match r with
      | [] => [[c]]
      | h :: t => (c :: h) :: t

/-- Python `int(s)`: optional surrounding whitespace, optional sign,
decimal digits. -/
def pyParseInt (s : String) : Option Int :=
  match pyStrip s with
  | '-' :: rest => (parseDigits rest).map (fun n => -(n : Int))
  | '+' :: rest => (parseDigits rest).map (fun n => (n : Int))
  | ds => (parseDigits ds).map (fun n => (n : Int))

/-- Unsigned decimal mantissa: `digits`, `digits.digits`, `.digits` or
`digits.`, with at least one digit overall. -/
def parseUnsignedDec (cs : List Char) : Option Rat :=
  match splitOnChar '.' cs with
  | [ip] =>
    if ip ≠ [] ∧ ip.all Char.isDigit then some ((digitsVal ip : Nat) : Rat)
    else none
  | [ip, fp] =>
    if (ip ≠ [] ∨ fp ≠ []) ∧ ip.all Char.isDigit ∧ fp.all Char.isDigit then
      some (mkRat (digitsVal ip * 10 ^ fp.length + digitsVal fp) (10 ^ fp.length))
    else none
  | _ => none

/-- Signed decimal mantissa. -/
def parseSignedDec (cs : List Char) : Option Rat :=
  match cs with
  | '-' :: rest => (parseUnsignedDec rest).map (fun q => -q)
  | '+' :: rest => parseUnsignedDec rest
  | _ => parseUnsignedDec cs

/-- Signed integer with no surrounding whitespace (exponent field). -/
def parseSignedInt (cs : List Char) : Option Int :=
  match cs with
  | '-' :: rest => (parseDigits rest).map (fun n => -(n : Int))
  | '+' :: rest => (parseDigits rest).map (fun n => (n : Int))
  | ds => (parseDigits ds).map (fun n => (n : Int))

/-- Multiply a rational by `10^e` (scaling by the exponent field). -/
def ratTimesPow10 (q : Rat) (e : Int) : Rat :=
  match e with
  | Int.ofNat n => mkRat (q.num * (10 ^ n : Nat)) q.den
  | Int.negSucc n => mkRat q.num (q.den * 10 ^ (n + 1))

/-- Python `float(s)`: optional surrounding whitespace, signed decimal
mantissa, optional `e`/`E` exponent. -/
def pyParseFloat (s : String) : Option Rat :=
  let t := (pyStrip s).map Char.toLower
  match splitOnChar 'e' t with
  | [m] => parseSignedDec m
  | [m, ex] =>
    match parseSignedDec m, parseSignedInt ex with
    | some mv, some ev => some (ratTimesPow10 mv ev)
    | _, _ => none
  | _ => none

/-- Python `float(x)` on a scalar; `none` models `ValueError`/`TypeError`. -/
def CVal.toFloat : CVal → Option Rat
  | .int n => some (n : Rat)
  | .float q => some q
  | .str s => pyParseFloat s

/-! ## Built-in profile defaults and constant tables
(`PROFILE_DEFAULTS`, `FLUX_REQUIRED_PARAMS`, `env_mappings` of the script) -/

/-- `PROFILE_DEFAULTS["fast"]`. -/
def PROFILE_DEFAULTS_fast : Config :=
  [("resolution", CVal.int 512),
   ("max_train_steps", CVal.int 1500),
   ("network_dim", CVal.int 32),
   ("network_alpha", CVal.int 32),
   ("lr_warmup_steps", CVal.int 100),
   ("learning_rate", CVal.float (mkRat 1 10000)),
   ("lr_scheduler", CVal.str "constant_with_warmup"),
   ("noise_offset", CVal.float (mkRat 5 100)),
   ("network_dropout", CVal.float 0),
   ("min_snr_gamma", CVal.int 0),
   ("gradient_accumulation_steps", CVal.int 4),
   ("min_bucket_reso", CVal.int 256),
   ("max_bucket_reso", CVal.int 768),
   ("optimizer_type", CVal.str "AdamW8bit")]

/-- `PROFILE_DEFAULTS["final"]`. -/
def PROFILE_DEFAULTS_final : Config :=
  [("resolution", CVal.int 768),
   ("max_train_steps", CVal.int 2500),
   ("network_dim", CVal.int 64),
   ("network_alpha", CVal.int 64),
   ("lr_warmup_steps", CVal.int 500),
   ("learning_rate", CVal.float (mkRat 1 10000)),
   ("lr_scheduler", CVal.str "cosine_with_restarts"),
   ("lr_scheduler_num_cycles", CVal.int 1),
   ("noise_offset", CVal.float (mkRat 1 10)),
   ("network_dropout", CVal.float (mkRat 1 10)),
   ("min_snr_gamma", CVal.float 5),
   ("gradient_accumulation_steps", CVal.int 4),
   ("min_bucket_reso", CVal.int 384),
   ("max_bucket_reso", CVal.int 1024),
   ("optimizer_type", CVal.str "AdamW8bit")]

/-- `FLUX_REQUIRED_PARAMS`: the constant key/value block that is always
emitted verbatim into the command. -/
def FLUX_REQUIRED_PARAMS : List (String × CVal) :=
  [("guidance_scale", CVal.float 1),
   ("timestep_sampling", CVal.str "flux_shift"),
   ("model_prediction_type", CVal.str "raw"),
   ("discrete_flow_shift", CVal.float 1)]

/-- `env_mappings` of `get_env_overrides`: environment variable → config key,
in source order. -/
def env_mappings : List (String × String) :=
  [("RANK", "network_dim"),
   ("ALPHA", "network_alpha"),
   ("MAX_STEPS", "max_train_steps"),
   ("RESOLUTION", "resolution"),
   ("LEARNING_RATE", "learning_rate"),
   ("UNET_LR", "learning_rate"),
   ("WARMUP", "lr_warmup_steps"),
   ("NOISE_OFFSET", "noise_offset"),
   ("DROPOUT", "network_dropout"),
   ("SNR_GAMMA", "min_snr_gamma"),
   ("GRAD_ACCUM", "gradient_accumulation_steps"),
   ("BATCH_SIZE", "train_batch_size"),
   ("SEED", "seed"),
   ("OPTIMIZER", "optimizer_type"),
   ("SCHEDULER", "lr_scheduler"),
   ("MIN_BUCKET", "min_bucket_reso"),
   ("MAX_BUCKET", "max_bucket_reso")]

/-- The config keys coerced with `int(value)` in `get_env_overrides`. -/
def int_keys : List String :=
  ["network_dim", "network_alpha", "max_train_steps", "lr_warmup_steps",
   "gradient_accumulation_steps", "train_batch_size", "seed", "resolution",
   "min_bucket_reso", "max_bucket_reso"]

/-- The config keys coerced with `float(value)` in `get_env_overrides`. -/
def float_keys : List String :=
  ["learning_rate", "noise_offset", "network_dropout", "min_snr_gamma"]

/-- Coercion of one environment value to its key's declared kind
(the `try` body of `get_env_overrides`); `none` is the caught `ValueError`. -/
def coerce_env (config_key : String) (value : String) : Option CVal :=
  if int_keys.contains config_key then (pyParseInt value).map CVal.int
  else if float_keys.contains config_key then (pyParseFloat value).map CVal.float
  else some (CVal.str value)

/-- One step of the `get_env_overrides` loop: skip an unset or blank
variable, store a successfully coerced value, and silently skip a value
whose coercion fails (`except ValueError: pass` — nothing is printed). -/
def env_override_step (env : String → Option String) (overrides : Config)
    (m : String × String) : Config :=
  match env m.1 with
  | none => overrides
  | some value =>
    if pyStrip value = [] then overrides
    else
      match coerce_env m.2 value with
      | some v => cfgInsert overrides m.2 v
      | none => overrides

/-- `get_env_overrides()`: the override layer built from the environment,
paired with the list of diagnostic lines the function prints (the source
contains no print in this function, so the list is always empty). -/
def get_env_overrides (env : String → Option String) : Config × List String :=
  (env_mappings.foldl (env_override_step env) [], [])

/-! ## Validation (`validate_config`) -/

/-- `rank = config.get("network_dim", 32)`. -/
def cfg_rank (config : Config) : CVal :=
  cfgGetD config "network_dim" (CVal.int 32)

/-- `alpha = config.get("network_alpha", rank)`. -/
def cfg_alpha (config : Config) : CVal :=
  cfgGetD config "network_alpha" (cfg_rank config)

/-- The warning text appended when the alpha/rank mismatch is bypassed. -/
def alpha_mismatch_warning (config : Config) : String :=
  "P0 WARNING: network_alpha (" ++ CVal.toStr (cfg_alpha config) ++
    ") != network_dim (" ++ CVal.toStr (cfg_rank config) ++
    "). Proceeding due to --allow-alpha-mismatch flag."

/-- The learning-rate soft check of `validate_config` (`lr > 5e-4`);
parse failures are swallowed by the `except` clause. -/
def lr_warning (config : Config) : List String :=
  let lr0 := cfgGetD config "learning_rate" (CVal.float (mkRat 1 10000))
  match (if CVal.truthy lr0 then CVal.toFloat lr0 else some (mkRat 1 10000)) with
  | none => []
  | some lr =>
    if lr > mkRat 5 10000 then
      ["WARNING: Learning rate " ++ pyFloatRepr lr ++ " may be too high (risk of NaN)"]
    else []

/-- The noise-offset soft check of `validate_config` (`noise > 0.15`). -/
def noise_warning (config : Config) : List String :=
  let n0 := cfgGetD config "noise_offset" (CVal.int 0)
  match (if CVal.truthy n0 then CVal.toFloat n0 else some (0 : Rat)) with
  | none => []
  | some noise =>
    if noise > mkRat 15 100 then
      ["WARNING: noise_offset " ++ pyFloatRepr noise ++ " > 0.15 may cause artifacts"]
    else []

/-- The two soft (never fatal) checks, in source order. -/
def soft_warnings (config : Config) : List String :=
  lr_warning config ++ noise_warning config

/-- `validate_config(config, allow_alpha_mismatch)`: `Except.error 1` models
`sys.exit(1)` on the hard alpha/rank invariant; otherwise the warning list
is returned (with the bypass warning first when the mismatch was bypassed). -/
def validate_config (config : Config) (allow_alpha_mismatch : Bool) :
    Except Nat (List String) :=
  if pyEq (cfg_alpha config) (cfg_rank config) then
    Except.ok (soft_warnings config)
  else if allow_alpha_mismatch then
    Except.ok (alpha_mismatch_warning config :: soft_warnings config)
  else
    Except.error 1

/-! ## Layer merge, alpha sync and bucket auto-correction (`main`) -/

/-- Lines 533-539 of `main`: auto-sync of `network_alpha` with `network_dim`.
`flat` is the flattened TOML layer, `env` the environment-override layer and
`config` the already-merged dict. `none` models the `KeyError` that the direct
indexing `config["network_dim"]` would raise if the key were absent. -/
def alpha_sync (flat env config : Config) : Option Config :=
  if cfgHasKey env "network_dim" && ! cfgHasKey env "network_alpha" then
    (cfgGet config "network_dim").map (fun v => cfgInsert config "network_alpha" v)
  else if ! cfgHasKey env "network_alpha" && ! cfgHasKey flat "network_alpha" then
    (cfgGet config "network_dim").map (fun v => cfgInsert config "network_alpha" v)
  else some config

/-- Read an integer-valued entry with a default (the resolution and the two
bucket bounds are `int`s in every layer the script builds: profile defaults
and the `int(value)`-coerced environment overrides); a non-integer value is
outside the modelled domain (`none`). -/
def cfgGetIntD (c : Config) (k : String) (d : Int) : Option Int :=
  match cfgGet c k with
  | none => some d
  | some (CVal.int n) => some n
  | some _ => none

/-- The advisory printed when `max_bucket_reso` is auto-raised. -/
def max_bucket_advisory (old new resolution : Int) : String :=
  "[AUTO] Adjusted max_bucket_reso: " ++ toString old ++ " -> " ++ toString new ++
    " (must be >= resolution " ++ toString resolution ++ ")"

/-- The advisory printed when `min_bucket_reso` is auto-lowered. -/
def min_bucket_advisory (old new : Int) : String :=
  "[AUTO] Adjusted min_bucket_reso: " ++ toString old ++ " -> " ++ toString new

/-- Lines 541-556 of `main`: bucket-bound auto-correction. Python's floor
division `//` is `Int.fdiv`. Returns the corrected config together with the
advisories printed, in order. -/
def adjust_buckets (config : Config) : Option (Config × List String) :=
  match cfgGetIntD config "resolution" 512 with
  | none => none
  | some resolution =>
    match cfgGetIntD config "max_bucket_reso" 1024 with
    | none => none
    | some max_bucket =>
      let step1 : Config × List String :=
        if resolution > max_bucket then
          let new_max := (Int.fdiv resolution 64 + 2) * 64
          (cfgInsert config "max_bucket_reso" (CVal.int new_max),
           [max_bucket_advisory max_bucket new_max resolution])
        else (config, [])
      match cfgGetIntD step1.1 "min_bucket_reso" 256 with
      | none => none
      | some min_bucket =>
        if min_bucket > Int.fdiv resolution 2 then
          let new_min := max 256 (Int.fdiv (Int.fdiv resolution 4) 64 * 64)
          some (cfgInsert step1.1 "min_bucket_reso" (CVal.int new_min),
                step1.2 ++ [min_bucket_advisory min_bucket new_min])
        else some step1

/-- The config-resolution part of `main`: profile defaults, updated by the
flattened TOML layer, updated by the environment layer, then alpha sync and
bucket auto-correction. Yields the effective config and the advisories. -/
def resolve_config (defaults flat env : Config) : Option (Config × List String) :=
  match alpha_sync flat env (cfgUpdate (cfgUpdate defaults flat) env) with
  | none => none
  | some c => adjust_buckets c

/-! ## Command synthesis (`build_command`) -/

/-- The path table handed to `build_command` (the `paths` dict of `main`,
minus the `workspace` entry, which `build_command` never reads). -/
structure Paths where
  sdscripts : String
  model : String
  text_encoder : String
  data : String
  output : String
  logs : String
  sample_prompts : String
deriving DecidableEq, Repr

/-- The default path table of the script, with no overriding environment. -/
def default_paths : Paths where
  sdscripts := "/opt/sd-scripts"
  model := "/workspace/models/flux1-dev"
  text_encoder := "/workspace/models/text_encoders"
  data := "/workspace/lora_training/data/subject"
  output := "/workspace/lora_training/output"
  logs := "/workspace/lora_training/logs"
  sample_prompts := "/workspace/lora_training/configs/sample_prompts.txt"

/-- Lines 228-369 of `build_command`: every token before the resume block, in
the fixed source order. `none` models an uncaught `TypeError`/`ValueError`
from a configuration value of an unexpected type. -/
def build_core (config : Config) (paths : Paths) (run_name : String)
    (fp8_base : Bool) : Option (List String) := do
  let train_script := paths.sdscripts ++ "/flux_train_network.py"
  let cmd0 : List String :=
    ["accelerate", "launch", "--num_cpu_threads_per_process", "1", train_script]
  let cmd1 := cmd0 ++
    ["--pretrained_model_name_or_path=" ++ paths.model ++ "/flux1-dev.safetensors",
     "--clip_l=" ++ paths.text_encoder ++ "/clip_l.safetensors",
     "--t5xxl=" ++ paths.text_encoder ++ "/t5xxl_fp16.safetensors",
     "--ae=" ++ paths.model ++ "/ae.safetensors"]
  let cmd2 := cmd1 ++ ["--train_data_dir=" ++ paths.data]
  let cmd3 := cmd2 ++
    ["--output_dir=" ++ paths.output,
     "--output_name=" ++ run_name,
     "--save_model_as=safetensors"]
  let dim := cfgGetD config "network_dim" (CVal.int 32)
  let alpha := cfgGetD config "network_alpha" dim
  let cmd4 := cmd3 ++
    ["--network_module=networks.lora_flux",
     "--network_dim=" ++ CVal.toStr dim,
     "--network_alpha=" ++ CVal.toStr alpha]
  let dropout := cfgGetD config "network_dropout" (CVal.int 0)
  let dropoutPos ← pyGt dropout 0
  let cmd5 := if dropoutPos then cmd4 ++ ["--network_dropout=" ++ CVal.toStr dropout] else cmd4
  let lr0 := cfgGetD config "learning_rate" (CVal.float (mkRat 1 10000))
  let lr ← if CVal.truthy lr0 then CVal.toFloat lr0 else some (mkRat 1 10000)
  let cmd6 := cmd5 ++
    ["--learning_rate=" ++ pyFloatRepr lr,
     "--optimizer_type=" ++ CVal.toStr (cfgGetD config "optimizer_type" (CVal.str "AdamW8bit")),
     "--lr_scheduler=" ++ CVal.toStr (cfgGetD config "lr_scheduler" (CVal.str "constant_with_warmup")),
     "--lr_warmup_steps=" ++ CVal.toStr (cfgGetD config "lr_warmup_steps" (CVal.int 100))]
  let isCyclical :=
    match cfgGet config "lr_scheduler" with
    | some v => pyEq v (CVal.str "cosine_with_restarts") || pyEq v (CVal.str "cosine")
    | none => false
  let cmd7 :=
    if isCyclical then
      cmd6 ++ ["--lr_scheduler_num_cycles=" ++ CVal.toStr (cfgGetD config "lr_scheduler_num_cycles" (CVal.int 1))]
    else cmd6
  let gradAccum := cfgGetD config "gradient_accumulation_steps" (CVal.int 4)
  let gradAccumGt1 ← pyGt gradAccum 1
  let cmd8 := if gradAccumGt1 then cmd7 ++ ["--gradient_accumulation_steps=" ++ CVal.toStr gradAccum] else cmd7
  let cmd9 := cmd8 ++
    ["--sdpa",
     "--mixed_precision=" ++ CVal.toStr (cfgGetD config "mixed_precision" (CVal.str "bf16")),
     "--gradient_checkpointing"]
  let cmd10 := if fp8_base then cmd9 ++ ["--fp8_base"] else cmd9
  let cmd11 := cmd10 ++ FLUX_REQUIRED_PARAMS.map (fun p => "--" ++ p.1 ++ "=" ++ CVal.toStr p.2)
  let cmd12 := cmd11 ++
    ["--blocks_to_swap=" ++ CVal.toStr (cfgGetD config "blocks_to_swap" (CVal.int 18)),
     "--cache_text_encoder_outputs",
     "--cache_latents",
     "--cache_latents_to_disk"]
  let cmd13 := cmd12 ++
    ["--resolution=" ++ CVal.toStr (cfgGetD config "resolution" (CVal.int 512)),
     "--enable_bucket",
     "--min_bucket_reso=" ++ CVal.toStr (cfgGetD config "min_bucket_reso" (CVal.int 256)),
     "--max_bucket_reso=" ++ CVal.toStr (cfgGetD config "max_bucket_reso" (CVal.int 1024)),
     "--bucket_reso_steps=64"]
  let cmd14 := cmd13 ++
    ["--train_batch_size=" ++ CVal.toStr (cfgGetD config "train_batch_size" (CVal.int 1)),
     "--max_train_steps=" ++ CVal.toStr (cfgGetD config "max_train_steps" (CVal.int 1500))]
  let noiseOffset := cfgGetD config "noise_offset" (CVal.int 0)
  let noisePos ← pyGt noiseOffset 0
  let cmd15 := if noisePos then cmd14 ++ ["--noise_offset=" ++ CVal.toStr noiseOffset] else cmd14
  let snrGamma := cfgGetD config "min_snr_gamma" (CVal.int 0)
  let snrPos ← pyGt snrGamma 0
  let cmd16 := if snrPos then cmd15 ++ ["--min_snr_gamma=" ++ CVal.toStr snrGamma] else cmd15
  let cmd17 := cmd16 ++
    ["--caption_extension=.txt",
     "--keep_tokens=" ++ CVal.toStr (cfgGetD config "keep_tokens" (CVal.int 1))]
  let cmd18 := cmd17 ++
    ["--save_every_n_steps=" ++ CVal.toStr (cfgGetD config "save_every_n_steps" (CVal.int 500)),
     "--save_precision=" ++ CVal.toStr (cfgGetD config "save_precision" (CVal.str "bf16"))]
  let cmd19 := cmd18 ++
    ["--sample_every_n_steps=" ++ CVal.toStr (cfgGetD config "sample_every_n_steps" (CVal.int 250)),
     "--sample_prompts=" ++ paths.sample_prompts,
     "--sample_sampler=" ++ CVal.toStr (cfgGetD config "sample_sampler" (CVal.str "euler"))]
  let cmd20 := cmd19 ++
    ["--logging_dir=" ++ paths.logs,
     "--seed=" ++ CVal.toStr (cfgGetD config "seed" (CVal.int 42))]
  let workers := cfgGetD config "max_data_loader_n_workers" (CVal.int 2)
  let workersPos ← pyGt workers 0
  let cmd21 := if workersPos then cmd20 ++ ["--max_data_loader_n_workers=" ++ CVal.toStr workers] else cmd20
  pure cmd21

/-- Lines 371-377 of `build_command`: the resume block. A supplied, truthy
(nonempty) resume path that exists on disk appends the `--network_weights`
flag; a missing one only prints an advisory. Returns the tokens and the
stderr lines. -/
def resume_step (parts : List String) (resume_from : Option String)
    (fsExists : String → Bool) : List String × List String :=
  match resume_from with
  | none => (parts, [])
  | some rf =>
    if rf = "" then (parts, [])
    else if fsExists rf then
      (parts ++ ["--network_weights=" ++ rf], ["[RESUME] Resuming from: " ++ rf])
    else
      (parts, ["WARNING: Resume checkpoint not found: " ++ rf])

/-- `build_command(...)` up to the final string join: the ordered token list
plus the stderr lines. -/
def build_command (config : Config) (paths : Paths) (run_name : String)
    (resume_from : Option String) (fp8_base : Bool) (fsExists : String → Bool) :
    Option (List String × List String) :=
  (build_core config paths run_name fp8_base).map
    (fun parts => resume_step parts resume_from fsExists)

/-- Split at the first `=`, as `part.split("=", 1)` does when `"=" in part`. -/
def splitFirstEq : List Char → Option (List Char × List Char)
  | [] => none
  | c :: rest =>
    if c == '=' then some ([], rest)
    else (splitFirstEq rest).map (fun p => (c :: p.1, p.2))

/-- Lines 379-393: quoting of one token — if it is a `key=value` pair whose
value contains a space, the value is wrapped in double quotes. -/
def quote_part (part : String) : String :=
  match splitFirstEq part.data with
  | none => part
  | some kv =>
    if kv.2.contains ' ' then
      String.mk kv.1 ++ "=\"" ++ String.mk kv.2 ++ "\""
    else part

/-- The final command string returned by `build_command`. -/
def build_command_str (config : Config) (paths : Paths) (run_name : String)
    (resume_from : Option String) (fp8_base : Bool) (fsExists : String → Bool) :
    Option String :=
  (build_command config paths run_name resume_from fp8_base fsExists).map
    (fun pr => String.intercalate " " (pr.1.map quote_part))

/-- The tail of `main` after config resolution: validate (which may
`sys.exit(1)`), then synthesize and print the command. `Except.error 1`
is a non-zero process exit with no command produced (an uncaught exception
inside `build_command` also exits the interpreter with status 1). -/
def run_main (config : Config) (allow_alpha_mismatch : Bool) (paths : Paths)
    (run_name : String) (resume_from : Option String) (fp8_base : Bool)
    (fsExists : String → Bool) : Except Nat (List String × String) :=
  match validate_config config allow_alpha_mismatch with
  | Except.error n => Except.error n
  | Except.ok warnings =>
    match build_command_str config paths run_name resume_from fp8_base fsExists with
    | none => Except.error 1
    | some cmd => Except.ok (warnings, cmd)

/-! ## Dataset fingerprint (`compute_dataset_hash`)

The directory walk is abstracted as `Option (List FileEntry)`: `none` is a
path that is not a directory, `some entries` the readable files found under
it (relative path, size, integer mtime). `hashlib.md5(...).hexdigest()` is
modelled by a faithful MD5 over the UTF-8 bytes of the joined string. -/

/-- One readable file found by the `os.walk` of `compute_dataset_hash`. -/
structure FileEntry where
  rel : String
  size : Nat
  mtime : Int
deriving DecidableEq, Repr

/-- The `f"{rel_path}:{stat.st_size}:{int(stat.st_mtime)}"` line. -/
def file_info_line (e : FileEntry) : String :=
  e.rel ++ ":" ++ toString e.size ++ ":" ++ toString e.mtime

/-- Insert into a lexicographically sorted list (helper for `sortStrings`). -/
def insertSorted (s : String) : List String → List String
  | [] => [s]
  | t :: ts => if s ≤ t then s :: t :: ts else t :: insertSorted s ts

/-- Python `sorted` on strings (lexicographic by code point). -/
def sortStrings : List String → List String
  | [] => []
  | s :: ss => insertSorted s (sortStrings ss)

/-- UTF-8 encoding of a single code point. -/
def utf8EncodeChar (c : Char) : List Nat :=
  let n := c.toNat
  if n < 128 then [n]
  else if n < 2048 then [192 + n / 64, 128 + n % 64]
  else if n < 65536 then [224 + n / 4096, 128 + n / 64 % 64, 128 + n % 64]
  else [240 + n / 262144, 128 + n / 4096 % 64, 128 + n / 64 % 64, 128 + n % 64]

/-- `s.encode()`: the UTF-8 bytes of a string. -/
def utf8Bytes (s : String) : List Nat :=
  s.data.flatMap utf8EncodeChar

/-- The MD5 per-round left-rotation amounts (RFC 1321). -/
def md5S : List Nat :=
  [7, 12, 17, 22, 7, 12, 17, 22, 7, 12, 17, 22, 7, 12, 17, 22,
   5, 9, 14, 20, 5, 9, 14, 20, 5, 9, 14, 20, 5, 9, 14, 20,
   4, 11, 16, 23, 4, 11, 16, 23, 4, 11, 16, 23, 4, 11, 16, 23,
   6, 10, 15, 21, 6, 10, 15, 21, 6, 10, 15, 21, 6, 10, 15, 21]

/-- The MD5 sine-derived constants `K[i] = ⌊|sin(i+1)| · 2³²⌋` (RFC 1321). -/
def md5K : List Nat :=
  [0xd76aa478, 0xe8c7b756, 0x242070db, 0xc1bdceee,
   0xf57c0faf, 0x4787c62a, 0xa8304613, 0xfd469501,
   0x698098d8, 0x8b44f7af, 0xffff5bb1, 0x895cd7be,
   0x6b901122, 0xfd987193, 0xa679438e, 0x49b40821,
   0xf61e2562, 0xc040b340, 0x265e5a51, 0xe9b6c7aa,
   0xd62f105d, 0x02441453, 0xd8a1e681, 0xe7d3fbc8,
   0x21e1cde6, 0xc33707d6, 0xf4d50d87, 0x455a14ed,
   0xa9e3e905, 0xfcefa3f8, 0x676f02d9, 0x8d2a4c8a,
   0xfffa3942, 0x8771f681, 0x6d9d6122, 0xfde5380c,
   0xa4beea44, 0x4bdecfa9, 0xf6bb4b60, 0xbebfbc70,
   0x289b7ec6, 0xeaa127fa, 0xd4ef3085, 0x04881d05,
   0xd9d4d039, 0xe6db99e5, 0x1fa27cf8, 0xc4ac5665,
   0xf4292244, 0x432aff97, 0xab9423a7, 0xfc93a039,
   0x655b59c3, 0x8f0ccc92, 0xffeff47d, 0x85845dd1,
   0x6fa87e4f, 0xfe2ce6e0, 0xa3014314, 0x4e0811a1,
   0xf7537e82, 0xbd3af235, 0x2ad7d2bb, 0xeb86d391]

/-- 2³², the 32-bit modulus. -/
def m32 : Nat := 4294967296

/-- 32-bit addition. -/
def add32 (a b : Nat) : Nat := (a + b) % m32

/-- 32-bit complement (operands stay below 2³² throughout). -/
def not32 (a : Nat) : Nat := 4294967295 - a

/-- 32-bit left rotation. -/
def rotl32 (x n : Nat) : Nat := ((x <<< n) ||| (x >>> (32 - n))) % m32

/-- Little-endian 8-byte encoding (for the bit-length trailer). -/
def le8 (n : Nat) : List Nat :=
  [n % 256, n / 256 % 256, n / 65536 % 256, n / 16777216 % 256,
   n / 4294967296 % 256, n / 1099511627776 % 256,
   n / 281474976710656 % 256, n / 72057594037927936 % 256]

/-- Little-endian 4-byte encoding of a 32-bit word. -/
def le4 (n : Nat) : List Nat :=
  [n % 256, n / 256 % 256, n / 65536 % 256, n / 16777216 % 256]

/-- MD5 padding: `0x80`, zeros to 56 mod 64, then the 64-bit bit length. -/
def md5pad (msg : List Nat) : List Nat :=
  let len := msg.length
  let padLen := (56 + 64 - (len + 1) % 64) % 64
  msg ++ [128] ++ List.replicate padLen 0 ++ le8 (len * 8 % 18446744073709551616)

/-- Split into 64-byte chunks (`fuel` is the list length). -/
def chunksGo : Nat → List Nat → List (List Nat)
  | 0, _ => []
  | _ + 1, [] => []
  | fuel + 1, l => l.take 64 :: chunksGo fuel (l.drop 64)

/-- The sixteen little-endian 32-bit words of one 64-byte chunk. -/
def chunkWords (chunk : List Nat) : List Nat :=
  (List.range 16).map (fun i =>
    chunk.getD (4 * i) 0 + 256 * chunk.getD (4 * i + 1) 0 +
    65536 * chunk.getD (4 * i + 2) 0 + 16777216 * chunk.getD (4 * i + 3) 0)

/-- The 64 MD5 rounds on one chunk's word list. -/
def md5rounds (M : List Nat) (st : Nat × Nat × Nat × Nat) : Nat × Nat × Nat × Nat :=
  (List.range 64).foldl (fun st i =>
    let A := st.1
    let B := st.2.1
    let C := st.2.2.1
    let D := st.2.2.2
    let fg : Nat × Nat :=
      if i < 16 then ((B &&& C) ||| (not32 B &&& D), i)
      else if i < 32 then ((D &&& B) ||| (not32 D &&& C), (5 * i + 1) % 16)
      else if i < 48 then (B ^^^ C ^^^ D, (3 * i + 5) % 16)
      else (C ^^^ (B ||| not32 D), 7 * i % 16)
    let f2 := (fg.1 + A + md5K.getD i 0 + M.getD fg.2 0) % m32
    (D, add32 B (rotl32 f2 (md5S.getD i 0)), B, C)) st

/-- Fold the chunks through the compression function. -/
def md5chunks : List (List Nat) → Nat × Nat × Nat × Nat → Nat × Nat × Nat × Nat
  | [], st => st
  | ch :: rest, st =>
    let r := md5rounds (chunkWords ch) st
    md5chunks rest (add32 st.1 r.1, add32 st.2.1 r.2.1,
                    add32 st.2.2.1 r.2.2.1, add32 st.2.2.2 r.2.2.2)

/-- The sixteen digest bytes of a byte message. -/
def md5_digest (msg : List Nat) : List Nat :=
  let padded := md5pad msg
  let st := md5chunks (chunksGo padded.length padded)
    (0x67452301, 0xefcdab89, 0x98badcfe, 0x10325476)
  le4 st.1 ++ le4 st.2.1 ++ le4 st.2.2.1 ++ le4 st.2.2.2

/-- Lowercase hex digit. -/
def hexDigit (n : Nat) : Char :=
  if n < 10 then Char.ofNat (48 + n) else Char.ofNat (87 + n)

/-- Two lowercase hex characters of one byte. -/
def byteHex (b : Nat) : List Char :=
  [hexDigit (b / 16 % 16), hexDigit (b % 16)]

/-- `hashlib.md5(bytes).hexdigest()`: 32 lowercase hex characters. -/
def md5_hexdigest (msg : List Nat) : String :=
  String.mk ((md5_digest msg).flatMap byteHex)

/-- `compute_dataset_hash(data_dir)`: sentinel for a missing directory,
sentinel for a directory with no (readable) files, otherwise the MD5 of the
lexicographically sorted `rel:size:mtime` lines joined by newlines. -/
def compute_dataset_hash : Option (List FileEntry) → String
  | none => "dataset_not_found"
  | some files =>
    let file_info := files.map file_info_line
    if file_info = [] then "empty_dataset"
    else md5_hexdigest (utf8Bytes (String.intercalate "\n" (sortStrings file_info)))

/-! ## Substring containment (for statements about the command string) -/

/-- Bool test: the first character list is an initial segment of the second. -/
def listPre : List Char → List Char → Bool
  | [], _ => true
  | _ :: _, [] => false
  | a :: as, b :: bs => a == b && listPre as bs

/-- Bool test: `pat` occurs as a contiguous segment of the second list. -/
def listSubInfix (pat : List Char) : List Char → Bool
  | [] => listPre pat []
  | c :: rest => listPre pat (c :: rest) || listSubInfix pat rest

/-- Bool test: `pat` is a contiguous substring of `s`. -/
def strContainsSub (s pat : String) : Bool :=
  listSubInfix pat.data s.data

/-! ## Claims -/

/-- **C1.** For every effective configuration whose `network_alpha` differs
from `network_dim` (Python `!=` on the values read by `validate_config`):
without `--allow-alpha-mismatch` the run exits with status 1 before any
command is synthesized or printed; with the flag, the mismatch warning is
appended (at the head of the warning list) and a command is still produced
(whenever command synthesis evaluates, i.e. the configuration values are
well-typed for `build_command`). -/
theorem c1_alpha_mismatch_validation (config : Config) (paths : Paths)
    (run_name : String) (resume_from : Option String) (fp8 : Bool)
    (fs : String → Bool)
    (h : pyEq (cfg_alpha config) (cfg_rank config) = false) :
    run_main config false paths run_name resume_from fp8 fs = Except.error 1 ∧
    (∀ cmd, build_command_str config paths run_name resume_from fp8 fs = some cmd →
      run_main config true paths run_name resume_from fp8 fs =
        Except.ok (alpha_mismatch_warning config :: soft_warnings config, cmd)) := by
  constructor
  · simp [run_main, validate_config, h]
  · intro cmd hcmd
    simp [run_main, validate_config, h, hcmd]

/-- The mismatched configuration of end-to-end scenario C
(rank 32, alpha 16). -/
def c1_config : Config :=
  [("network_dim", CVal.int 32), ("network_alpha", CVal.int 16)]

/-- The command scenario C produces when the bypass flag is set. -/
def c1_cmd : String :=
  (build_command_str c1_config default_paths "r" none false (fun _ => false)).getD ""

/-- Witness for C1 at rank 32 / alpha 16. -/
theorem c1_alpha_mismatch_validation_witness :
    run_main c1_config false default_paths "r" none false (fun _ => false) = Except.error 1 ∧
    run_main c1_config true default_paths "r" none false (fun _ => false) =
      Except.ok (alpha_mismatch_warning c1_config :: soft_warnings c1_config, c1_cmd) := by
  have h := c1_alpha_mismatch_validation c1_config default_paths "r" none false
    (fun _ => false) (by decide)
  exact ⟨h.1, h.2 c1_cmd (by rfl)⟩

/-- **C5.** The command synthesizer is deterministic: two invocations on
identical effective configuration, path table, run identifier, resume
source, low-precision toggle and file-system state yield byte-identical
command strings. -/
theorem c5_command_synthesis_deterministic
    (c₁ c₂ : Config) (p₁ p₂ : Paths) (r₁ r₂ : String) (rf₁ rf₂ : Option String)
    (f₁ f₂ : Bool) (fs₁ fs₂ : String → Bool)
    (hc : c₁ = c₂) (hp : p₁ = p₂) (hr : r₁ = r₂) (hrf : rf₁ = rf₂)
    (hf : f₁ = f₂) (hfs : fs₁ = fs₂) :
    build_command_str c₁ p₁ r₁ rf₁ f₁ fs₁ = build_command_str c₂ p₂ r₂ rf₂ f₂ fs₂ := by
  subst hc hp hr hrf hf hfs
  rfl

/-- Witness for C5 at the mismatch-free two-key configuration. -/
theorem c5_command_synthesis_deterministic_witness :
    build_command_str [("network_dim", CVal.int 48)] default_paths "run" none true
        (fun _ => true) =
      build_command_str [("network_dim", CVal.int 48)] default_paths "run" none true
        (fun _ => true) :=
  c5_command_synthesis_deterministic _ _ _ _ _ _ _ _ _ _ _ _
    rfl rfl rfl rfl rfl rfl

/-- End-to-end scenario A: profile `fast`, absent override file (empty file
layer), no runtime overrides (every environment variable unset). -/
def scenarioA : Option (Config × List String) :=
  resolve_config PROFILE_DEFAULTS_fast [] (get_env_overrides (fun _ => none)).1

/-- The effective configuration of scenario A. -/
def scenarioA_config : Config := (scenarioA.getD ([], [])).1

/-- The fixed required external-process parameter block, as it appears
verbatim in the synthesized command. -/
def flux_required_block : String :=
  "--guidance_scale=1.0 --timestep_sampling=flux_shift --model_prediction_type=raw --discrete_flow_shift=1.0"

set_option maxRecDepth 100000 in
/-- **C6.** With profile `fast`, an absent override file and no runtime
overrides, resolution succeeds with no advisories; the effective config has
`network_dim = 32`, `network_alpha = 32`, `resolution = 512`; and the
synthesized command contains the fixed required FLUX parameter block
verbatim. -/
theorem c6_scenarioA_fast_profile :
    scenarioA = some (scenarioA_config, []) ∧
    cfgGet scenarioA_config "network_dim" = some (CVal.int 32) ∧
    cfgGet scenarioA_config "network_alpha" = some (CVal.int 32) ∧
    cfgGet scenarioA_config "resolution" = some (CVal.int 512) ∧
    (build_command_str scenarioA_config default_paths "flux_fast_run" none false
        (fun _ => false)).map (fun s => strContainsSub s flux_required_block) =
      some true := by
  exact ⟨rfl, rfl, rfl, rfl, rfl⟩

/-- If the alpha-sync branch fired (`config["network_alpha"] =
config["network_dim"]` executed without `KeyError`), then in the resulting
dict the two keys agree. -/
theorem cfgGet_alpha_insert_of_map_eq (merged c : Config)
    (h : (cfgGet merged "network_dim").map
        (fun v => cfgInsert merged "network_alpha" v) = some c) :
    cfgGet c "network_alpha" = cfgGet c "network_dim" := by
  cases hv : cfgGet merged "network_dim" with
  | none => rw [hv] at h; simp at h
  | some v =>
    rw [hv] at h
    simp only [Option.map_some'] at h
    have hc : cfgInsert merged "network_alpha" v = c := Option.some.inj h
    rw [← hc, cfgGet_insert_self,
      cfgGet_insert_ne _ _ _ _ (by decide : ("network_alpha" : String) ≠ "network_dim"), hv]

/-- **C2.** After the three layers are merged and the alpha sync of `main`
has run: if the runtime layer set `network_dim` and not `network_alpha`, the
effective `network_alpha` equals the effective `network_dim`; otherwise if
neither the runtime nor the file layer set `network_alpha`, the same holds;
otherwise an explicit `network_alpha` from the runtime layer, or from the
file layer, is respected. -/
theorem c2_alpha_sync_rule (defaults flat env : Config) (c : Config)
    (hfl : cfgNodup flat) (hen : cfgNodup env)
    (h : alpha_sync flat env (cfgUpdate (cfgUpdate defaults flat) env) = some c) :
    (cfgHasKey env "network_dim" = true → cfgHasKey env "network_alpha" = false →
      cfgGet c "network_alpha" = cfgGet c "network_dim") ∧
    (cfgHasKey env "network_alpha" = false → cfgHasKey flat "network_alpha" = false →
      cfgGet c "network_alpha" = cfgGet c "network_dim") ∧
    (∀ v, cfgGet env "network_alpha" = some v → cfgGet c "network_alpha" = some v) ∧
    (∀ v, cfgHasKey env "network_alpha" = false → cfgHasKey env "network_dim" = false →
      cfgGet flat "network_alpha" = some v → cfgGet c "network_alpha" = some v) := by
  unfold alpha_sync at h
  refine ⟨?_, ?_, ?_, ?_⟩
  · intro hdim halpha
    rw [if_pos (by rw [hdim, halpha]; rfl :
      (cfgHasKey env "network_dim" && ! cfgHasKey env "network_alpha") = true)] at h
    exact cfgGet_alpha_insert_of_map_eq _ _ h
  · intro halpha hflat
    cases hdim : cfgHasKey env "network_dim" with
    | true =>
      rw [if_pos (by rw [hdim, halpha]; rfl :
        (cfgHasKey env "network_dim" && ! cfgHasKey env "network_alpha") = true)] at h
      exact cfgGet_alpha_insert_of_map_eq _ _ h
    | false =>
      rw [if_neg (by rw [hdim]; simp :
        ¬ ((cfgHasKey env "network_dim" && ! cfgHasKey env "network_alpha") = true))] at h
      rw [if_pos (by rw [halpha, hflat]; rfl :
        (! cfgHasKey env "network_alpha" && ! cfgHasKey flat "network_alpha") = true)] at h
      exact cfgGet_alpha_insert_of_map_eq _ _ h
  · intro v hv
    have halpha : cfgHasKey env "network_alpha" = true := by
      simp [cfgHasKey, hv]
    rw [if_neg (by rw [halpha]; simp :
      ¬ ((cfgHasKey env "network_dim" && ! cfgHasKey env "network_alpha") = true))] at h
    rw [if_neg (by rw [halpha]; simp :
      ¬ ((! cfgHasKey env "network_alpha" && ! cfgHasKey flat "network_alpha") = true))] at h
    have hc : cfgUpdate (cfgUpdate defaults flat) env = c := Option.some.inj h
    rw [← hc]
    exact cfgGet_update_of_get _ _ _ _ hen hv
  · intro v halpha hdim hv
    have hflat : cfgHasKey flat "network_alpha" = true := by
      simp [cfgHasKey, hv]
    rw [if_neg (by rw [hdim]; simp :
      ¬ ((cfgHasKey env "network_dim" && ! cfgHasKey env "network_alpha") = true))] at h
    rw [if_neg (by rw [halpha, hflat]; simp :
      ¬ ((! cfgHasKey env "network_alpha" && ! cfgHasKey flat "network_alpha") = true))] at h
    have hc : cfgUpdate (cfgUpdate defaults flat) env = c := Option.some.inj h
    rw [← hc]
    rw [cfgGet_update_of_not_hasKey _ _ _ halpha]
    exact cfgGet_update_of_get _ _ _ _ hfl hv

/-- The runtime layer of scenario B's first half: only `RANK=48`. -/
def c2_env : Config := [("network_dim", CVal.int 48)]

/-- The dict after merge and alpha sync for the `RANK=48` override. -/
def c2_merged : Config :=
  (alpha_sync [] c2_env (cfgUpdate (cfgUpdate PROFILE_DEFAULTS_fast []) c2_env)).getD []

/-- Witness for C2: overriding only the rank forces `alpha = rank`. -/
theorem c2_alpha_sync_rule_witness :
    cfgGet c2_merged "network_alpha" = cfgGet c2_merged "network_dim" := by
  have h := c2_alpha_sync_rule PROFILE_DEFAULTS_fast [] c2_env c2_merged
    (by decide) (by decide) (by rfl)
  exact h.1 (by rfl) (by rfl)

/-! ## Bucket auto-correction claims -/

theorem cfgGetIntD_insert_ne (c : Config) (k k' : String) (v : CVal) (d : Int)
    (h : k' ≠ k) : cfgGetIntD (cfgInsert c k' v) k d = cfgGetIntD c k d := by
  unfold cfgGetIntD
  rw [cfgGet_insert_ne _ _ _ _ h]

theorem cfgGetIntD_insert_self (c : Config) (k : String) (n d : Int) :
    cfgGetIntD (cfgInsert c k (CVal.int n)) k d = some n := by
  simp [cfgGetIntD, cfgGet_insert_self]

/-- Floor division by a positive constant versus doubling. -/
theorem int_gt_half_iff (res minB : Int) :
    minB > Int.fdiv res 2 ↔ 2 * minB > res := by
  rw [Int.fdiv_eq_ediv _ (by norm_num)]
  omega

/-- The corrected upper bound `((res // 64) + 2) * 64` strictly exceeds the
resolution, for every integer resolution. -/
theorem corrected_max_gt_res (r : Int) : r < (Int.fdiv r 64 + 2) * 64 := by
  rw [Int.fdiv_eq_ediv _ (by norm_num)]
  omega

/-- Full characterization of the bucket auto-correction phase on a merged
configuration with integer resolution and bucket bounds. -/
theorem adjust_buckets_cases (config : Config) (res maxB minB : Int)
    (hres : cfgGetIntD config "resolution" 512 = some res)
    (hmax : cfgGetIntD config "max_bucket_reso" 1024 = some maxB)
    (hmin : cfgGetIntD config "min_bucket_reso" 256 = some minB) :
    ∃ c msgs, adjust_buckets config = some (c, msgs) ∧
      cfgGetIntD c "resolution" 512 = some res ∧
      cfgGetIntD c "max_bucket_reso" 1024 =
        some (if res > maxB then (Int.fdiv res 64 + 2) * 64 else maxB) ∧
      cfgGetIntD c "min_bucket_reso" 256 =
        some (if minB > Int.fdiv res 2 then
          max 256 (Int.fdiv (Int.fdiv res 4) 64 * 64) else minB) ∧
      msgs = (if res > maxB then
          [max_bucket_advisory maxB ((Int.fdiv res 64 + 2) * 64) res] else []) ++
        (if minB > Int.fdiv res 2 then
          [min_bucket_advisory minB (max 256 (Int.fdiv (Int.fdiv res 4) 64 * 64))] else []) := by
  have hd1 : ("max_bucket_reso" : String) ≠ "min_bucket_reso" := by decide
  have hd2 : ("max_bucket_reso" : String) ≠ "resolution" := by decide
  have hd3 : ("min_bucket_reso" : String) ≠ "resolution" := by decide
  have hd4 : ("min_bucket_reso" : String) ≠ "max_bucket_reso" := by decide
  by_cases hA : res > maxB
  · have hmin' : cfgGetIntD (cfgInsert config "max_bucket_reso"
        (CVal.int ((Int.fdiv res 64 + 2) * 64))) "min_bucket_reso" 256 = some minB := by
      rw [cfgGetIntD_insert_ne _ _ _ _ _ hd1]; exact hmin
    by_cases hB : minB > Int.fdiv res 2
    · refine ⟨cfgInsert (cfgInsert config "max_bucket_reso"
          (CVal.int ((Int.fdiv res 64 + 2) * 64))) "min_bucket_reso"
          (CVal.int (max 256 (Int.fdiv (Int.fdiv res 4) 64 * 64))),
        [max_bucket_advisory maxB ((Int.fdiv res 64 + 2) * 64) res,
         min_bucket_advisory minB (max 256 (Int.fdiv (Int.fdiv res 4) 64 * 64))],
        ?_, ?_, ?_, ?_, ?_⟩
      · simp [adjust_buckets, hres, hmax, hA, hmin', hB]
      · rw [cfgGetIntD_insert_ne _ _ _ _ _ hd3, cfgGetIntD_insert_ne _ _ _ _ _ hd2]
        exact hres
      · rw [cfgGetIntD_insert_ne _ _ _ _ _ hd4, cfgGetIntD_insert_self, if_pos hA]
      · rw [cfgGetIntD_insert_self, if_pos hB]
      · rw [if_pos hA, if_pos hB]; rfl
    · refine ⟨cfgInsert config "max_bucket_reso"
          (CVal.int ((Int.fdiv res 64 + 2) * 64)),
        [max_bucket_advisory maxB ((Int.fdiv res 64 + 2) * 64) res],
        ?_, ?_, ?_, ?_, ?_⟩
      · simp [adjust_buckets, hres, hmax, hA, hmin', hB]
      · rw [cfgGetIntD_insert_ne _ _ _ _ _ hd2]; exact hres
      · rw [cfgGetIntD_insert_self, if_pos hA]
      · rw [if_neg hB]; exact hmin'
      · rw [if_pos hA, if_neg hB]; rfl
  · by_cases hB : minB > Int.fdiv res 2
    · refine ⟨cfgInsert config "min_bucket_reso"
          (CVal.int (max 256 (Int.fdiv (Int.fdiv res 4) 64 * 64))),
        [min_bucket_advisory minB (max 256 (Int.fdiv (Int.fdiv res 4) 64 * 64))],
        ?_, ?_, ?_, ?_, ?_⟩
      · simp [adjust_buckets, hres, hmax, hA, hmin, hB]
      · rw [cfgGetIntD_insert_ne _ _ _ _ _ hd3]; exact hres
      · rw [cfgGetIntD_insert_ne _ _ _ _ _ hd4, if_neg hA]; exact hmax
      · rw [cfgGetIntD_insert_self, if_pos hB]
      · rw [if_neg hA, if_pos hB]; rfl
    · refine ⟨config, [], ?_, ?_, ?_, ?_, ?_⟩
      · simp [adjust_buckets, hres, hmax, hA, hmin, hB]
      · exact hres
      · rw [if_neg hA]; exact hmax
      · rw [if_neg hB]; exact hmin
      · rw [if_neg hA, if_neg hB]; rfl

/-- The configuration refuting C3 as stated: integer resolution 1000 (not a
multiple of 64) with upper bound 768. -/
def c3_counterexample_config : Config :=
  [("resolution", CVal.int 1000), ("max_bucket_reso", CVal.int 768),
   ("min_bucket_reso", CVal.int 256)]

/-- Counterexample to C3 as stated: with resolution 1000 exceeding the upper
bound 768, the code raises the bound to `((1000 // 64) + 2) * 64 = 1088`,
which is not at least two steps (128) above the resolution; the smallest
multiple of 64 that is at least `1000 + 128` is 1152, not 1088. -/
theorem c3_max_bucket_counterexample :
    (adjust_buckets c3_counterexample_config).map
        (fun r => cfgGetIntD r.1 "max_bucket_reso" 1024) = some (some 1088) ∧
    ¬ ((1000 : Int) + 2 * 64 ≤ 1088) ∧
    (1152 : Int) % 64 = 0 ∧ (1000 : Int) + 2 * 64 ≤ 1152 ∧ (1088 : Int) ≠ 1152 := by
  exact ⟨rfl, by decide, by decide, by decide, by decide⟩

/-- **C3 (amended).** On a merged configuration with integer resolution and
bucket bounds: when the resolution exceeds the upper bucket bound, the bound
is raised to `((resolution // 64) + 2) * 64` — the resolution rounded down
to the step 64, plus two steps — and the advisory with the before/after
values is recorded; otherwise the upper bound is unchanged. (At resolution
1024 this corrected value is 1152; see the witness.) -/
theorem c3_max_bucket_correction (config : Config) (res maxB minB : Int)
    (c : Config) (msgs : List String)
    (hres : cfgGetIntD config "resolution" 512 = some res)
    (hmax : cfgGetIntD config "max_bucket_reso" 1024 = some maxB)
    (hmin : cfgGetIntD config "min_bucket_reso" 256 = some minB)
    (h : adjust_buckets config = some (c, msgs)) :
    (res > maxB →
      cfgGetIntD c "max_bucket_reso" 1024 = some ((Int.fdiv res 64 + 2) * 64) ∧
      max_bucket_advisory maxB ((Int.fdiv res 64 + 2) * 64) res ∈ msgs) ∧
    (¬ res > maxB → cfgGetIntD c "max_bucket_reso" 1024 = some maxB) := by
  obtain ⟨c', msgs', heq, -, hmax', -, hmsgs'⟩ :=
    adjust_buckets_cases config res maxB minB hres hmax hmin
  rw [h] at heq
  have hp : c = c' ∧ msgs = msgs' := by simpa using Option.some.inj heq
  obtain ⟨rfl, rfl⟩ := hp
  constructor
  · intro hA
    rw [if_pos hA] at hmax'
    refine ⟨hmax', ?_⟩
    rw [hmsgs', if_pos hA]
    exact List.mem_append_left _ (by simp)
  · intro hA
    rw [if_neg hA] at hmax'
    exact hmax'

/-- The testable-property configuration for C3: resolution 1024, default
upper bound 768. -/
def c3_1024_config : Config :=
  [("resolution", CVal.int 1024), ("max_bucket_reso", CVal.int 768),
   ("min_bucket_reso", CVal.int 256)]

/-- The corrected configuration and advisories at resolution 1024. -/
def c3_1024_result : Config × List String :=
  (adjust_buckets c3_1024_config).getD ([], [])

/-- Witness for the amended C3: resolution 1024, bound 768 — the corrected
upper bound is 1152 and the advisory is recorded. -/
theorem c3_max_bucket_correction_witness :
    cfgGetIntD c3_1024_result.1 "max_bucket_reso" 1024 = some 1152 ∧
    max_bucket_advisory 768 1152 1024 ∈ c3_1024_result.2 := by
  have h := c3_max_bucket_correction c3_1024_config 1024 768 256
    c3_1024_result.1 c3_1024_result.2 (by rfl) (by rfl) (by rfl) (by rfl)
  have h1 := h.1 (by decide)
  have he : (Int.fdiv 1024 64 + 2) * 64 = 1152 := by decide
  rw [he] at h1
  exact h1

/-- **C7.** On a merged configuration with integer resolution and bucket
bounds: when the lower bucket bound exceeds half the resolution, it is set
to `max(256, (resolution // 4 // 64) * 64)` and the advisory is recorded;
otherwise the lower bound is unchanged. -/
theorem c7_min_bucket_correction (config : Config) (res maxB minB : Int)
    (c : Config) (msgs : List String)
    (hres : cfgGetIntD config "resolution" 512 = some res)
    (hmax : cfgGetIntD config "max_bucket_reso" 1024 = some maxB)
    (hmin : cfgGetIntD config "min_bucket_reso" 256 = some minB)
    (h : adjust_buckets config = some (c, msgs)) :
    (2 * minB > res →
      cfgGetIntD c "min_bucket_reso" 256 =
        some (max 256 (Int.fdiv (Int.fdiv res 4) 64 * 64)) ∧
      min_bucket_advisory minB (max 256 (Int.fdiv (Int.fdiv res 4) 64 * 64)) ∈ msgs) ∧
    (¬ 2 * minB > res → cfgGetIntD c "min_bucket_reso" 256 = some minB) := by
  obtain ⟨c', msgs', heq, -, -, hmin', hmsgs'⟩ :=
    adjust_buckets_cases config res maxB minB hres hmax hmin
  rw [h] at heq
  have hp : c = c' ∧ msgs = msgs' := by simpa using Option.some.inj heq
  obtain ⟨rfl, rfl⟩ := hp
  constructor
  · intro hB2
    have hB : minB > Int.fdiv res 2 := (int_gt_half_iff res minB).mpr hB2
    rw [if_pos hB] at hmin'
    refine ⟨hmin', ?_⟩
    rw [hmsgs', if_pos hB]
    exact List.mem_append_right _ (by simp)
  · intro hB2
    have hB : ¬ minB > Int.fdiv res 2 := fun hh => hB2 ((int_gt_half_iff res minB).mp hh)
    rw [if_neg hB] at hmin'
    exact hmin'

/-- The testable-property configuration for C7: resolution 512, default
lower bound 256 (fast-profile bounds). -/
def c7_config : Config :=
  [("resolution", CVal.int 512), ("min_bucket_reso", CVal.int 256),
   ("max_bucket_reso", CVal.int 768)]

/-- Witness for C7: at resolution 512 and lower bound 256 no correction
fires — the configuration and the advisory list are untouched. -/
theorem c7_min_bucket_correction_witness :
    cfgGetIntD c7_config "min_bucket_reso" 256 = some 256 ∧
    adjust_buckets c7_config = some (c7_config, []) := by
  have h := c7_min_bucket_correction c7_config 512 768 256 c7_config []
    (by rfl) (by rfl) (by rfl) (by rfl)
  exact ⟨h.2 (by decide), by rfl⟩

/-- **C10.** After the bucket auto-correction phase completes on a merged
configuration with integer resolution and bucket bounds, the effective
`max_bucket_reso` is at least the resolution — whether or not a correction
fired — because the corrected value `((r // 64) + 2) * 64` strictly exceeds
`r` for every integer `r`. -/
theorem c10_max_bucket_ge_resolution (config : Config) (res maxB minB : Int)
    (c : Config) (msgs : List String)
    (hres : cfgGetIntD config "resolution" 512 = some res)
    (hmax : cfgGetIntD config "max_bucket_reso" 1024 = some maxB)
    (hmin : cfgGetIntD config "min_bucket_reso" 256 = some minB)
    (h : adjust_buckets config = some (c, msgs)) :
    (∀ res' maxB', cfgGetIntD c "resolution" 512 = some res' →
      cfgGetIntD c "max_bucket_reso" 1024 = some maxB' → res' ≤ maxB') ∧
    (∀ r : Int, r < (Int.fdiv r 64 + 2) * 64) := by
  obtain ⟨c', msgs', heq, hres', hmax', -, -⟩ :=
    adjust_buckets_cases config res maxB minB hres hmax hmin
  rw [h] at heq
  have hp : c = c' ∧ msgs = msgs' := by simpa using Option.some.inj heq
  obtain ⟨rfl, rfl⟩ := hp
  refine ⟨?_, corrected_max_gt_res⟩
  intro res' maxB' h1 h2
  rw [hres'] at h1
  rw [hmax'] at h2
  have hres'' : res = res' := Option.some.inj h1
  subst hres''
  by_cases hA : res > maxB
  · rw [if_pos hA] at h2
    have hmb : (Int.fdiv res 64 + 2) * 64 = maxB' := Option.some.inj h2
    subst hmb
    exact le_of_lt (corrected_max_gt_res res)
  · rw [if_neg hA] at h2
    have hmb : maxB = maxB' := Option.some.inj h2
    subst hmb
    omega

/-- The C10 witness configuration: resolution 900 with upper bound 768. -/
def c10_config : Config :=
  [("resolution", CVal.int 900), ("max_bucket_reso", CVal.int 768),
   ("min_bucket_reso", CVal.int 256)]

/-- The corrected configuration and advisories for resolution 900. -/
def c10_result : Config × List String :=
  (adjust_buckets c10_config).getD ([], [])

/-- Witness for C10: the invariant holds after the correction at
resolution 900 (corrected upper bound 1024 ≥ 900). -/
theorem c10_max_bucket_ge_resolution_witness :
    cfgGetIntD c10_result.1 "max_bucket_reso" 1024 = some 1024 ∧
    (900 : Int) ≤ 1024 := by
  have h := c10_max_bucket_ge_resolution c10_config 900 768 256
    c10_result.1 c10_result.2 (by rfl) (by rfl) (by rfl) (by rfl)
  exact ⟨by rfl, h.1 900 1024 (by rfl) (by rfl)⟩

/-! ## Runtime override layer claims (C4) -/

theorem coerce_env_int_shape (k value : String) (v : CVal)
    (hk : int_keys.contains k = true) (h : coerce_env k value = some v) :
    ∃ n, v = CVal.int n := by
  unfold coerce_env at h
  rw [if_pos hk] at h
  cases hp : pyParseInt value with
  | none => rw [hp] at h; simp at h
  | some n =>
    rw [hp] at h
    simp only [Option.map_some'] at h
    exact ⟨n, (Option.some.inj h).symm⟩

theorem float_key_not_int_key (k : String) (h : float_keys.contains k = true) :
    int_keys.contains k = false := by
  simp only [float_keys, List.contains_cons, List.contains_nil, Bool.or_false,
    Bool.or_eq_true, beq_iff_eq] at h
  rcases h with rfl | rfl | rfl | rfl <;> decide

theorem coerce_env_float_shape (k value : String) (v : CVal)
    (hk : float_keys.contains k = true) (h : coerce_env k value = some v) :
    ∃ q, v = CVal.float q := by
  unfold coerce_env at h
  rw [if_neg (by rw [float_key_not_int_key k hk]; simp :
    ¬ (int_keys.contains k = true))] at h
  rw [if_pos hk] at h
  cases hp : pyParseFloat value with
  | none => rw [hp] at h; simp at h
  | some q =>
    rw [hp] at h
    simp only [Option.map_some'] at h
    exact ⟨q, (Option.some.inj h).symm⟩

/-- The shape invariant of the environment layer: int-kind keys hold ints,
float-kind keys hold floats. -/
def env_layer_sound (c : Config) : Prop :=
  (∀ k v, int_keys.contains k = true → cfgGet c k = some v → ∃ n, v = CVal.int n) ∧
  (∀ k v, float_keys.contains k = true → cfgGet c k = some v → ∃ q, v = CVal.float q)

theorem env_override_step_sound (env : String → Option String) (c : Config)
    (m : String × String) (hc : env_layer_sound c) :
    env_layer_sound (env_override_step env c m) := by
  unfold env_override_step
  split
  · exact hc
  next value heq =>
    split
    · exact hc
    · split
      next v' hco =>
        constructor
        · intro k v hk hg
          by_cases hkm : m.2 = k
          · subst hkm
            rw [cfgGet_insert_self] at hg
            have hv : v' = v := Option.some.inj hg
            subst hv
            exact coerce_env_int_shape _ _ _ hk hco
          · rw [cfgGet_insert_ne _ _ _ _ hkm] at hg
            exact hc.1 k v hk hg
        · intro k v hk hg
          by_cases hkm : m.2 = k
          · subst hkm
            rw [cfgGet_insert_self] at hg
            have hv : v' = v := Option.some.inj hg
            subst hv
            exact coerce_env_float_shape _ _ _ hk hco
          · rw [cfgGet_insert_ne _ _ _ _ hkm] at hg
            exact hc.2 k v hk hg
      next => exact hc

theorem env_fold_sound (env : String → Option String) (maps : List (String × String))
    (init : Config) (hinit : env_layer_sound init) :
    env_layer_sound (maps.foldl (env_override_step env) init) := by
  induction maps generalizing init with
  | nil => exact hinit
  | cons m rest ih =>
    rw [List.foldl_cons]
    exact ih _ (env_override_step_sound env init m hinit)

theorem env_fold_get_none (env : String → Option String)
    (maps : List (String × String)) (init : Config) (k : String)
    (hinit : cfgGet init k = none)
    (hmaps : ∀ m ∈ maps, m.2 = k →
      (env m.1 = none ∨ ∃ s, env m.1 = some s ∧ pyStrip s = [])) :
    cfgGet (maps.foldl (env_override_step env) init) k = none := by
  induction maps generalizing init with
  | nil => exact hinit
  | cons m rest ih =>
    rw [List.foldl_cons]
    refine ih _ ?_ (fun m' hm' hk => hmaps m' (List.mem_cons_of_mem _ hm') hk)
    unfold env_override_step
    split
    · exact hinit
    next value heq =>
      split
      · exact hinit
      next hb =>
        split
        next v' hco =>
          by_cases hkm : m.2 = k
          · rcases hmaps m (List.mem_cons_self _ _) hkm with he | ⟨s, hes, hblank⟩
            · rw [he] at heq; cases heq
            · rw [hes] at heq
              have hsv : s = value := Option.some.inj heq
              exact absurd (hsv ▸ hblank) hb
          · rw [cfgGet_insert_ne _ _ _ _ hkm]; exact hinit
        next => exact hinit

theorem env_fold_get_preserved (env : String → Option String)
    (maps : List (String × String)) (init : Config) (k : String) (v : CVal)
    (hinit : cfgGet init k = some v) (hmaps : ∀ m ∈ maps, m.2 ≠ k) :
    cfgGet (maps.foldl (env_override_step env) init) k = some v := by
  induction maps generalizing init with
  | nil => exact hinit
  | cons m rest ih =>
    rw [List.foldl_cons]
    refine ih _ ?_ (fun m' hm' => hmaps m' (List.mem_cons_of_mem _ hm'))
    have hkm : m.2 ≠ k := hmaps m (List.mem_cons_self _ _)
    unfold env_override_step
    split
    · exact hinit
    next value heq =>
      split
      · exact hinit
      · split
        next v' hco => rw [cfgGet_insert_ne _ _ _ _ hkm]; exact hinit
        next => exact hinit

/-- **C4 (amended).** For the runtime override layer: no diagnostic line is
ever printed by `get_env_overrides` (in particular no advisory on a coercion
failure — the `except ValueError` clause is a bare `pass`); a value that
fails coercion is never written raw (every int-kind key holds an `int`,
every float-kind key a `float`) and the run does not fail; a variable that
is unset or blank for every variable mapping to a key leaves that key out of
the layer; and a successfully coerced `RANK` overwrites `network_dim`. -/
theorem c4_env_override_coercion (env : String → Option String) :
    (get_env_overrides env).2 = [] ∧
    (∀ k v, int_keys.contains k = true →
      cfgGet (get_env_overrides env).1 k = some v → ∃ n, v = CVal.int n) ∧
    (∀ k v, float_keys.contains k = true →
      cfgGet (get_env_overrides env).1 k = some v → ∃ q, v = CVal.float q) ∧
    (∀ k, (∀ m ∈ env_mappings, m.2 = k →
        (env m.1 = none ∨ ∃ s, env m.1 = some s ∧ pyStrip s = [])) →
      cfgGet (get_env_overrides env).1 k = none) ∧
    (∀ s n, env "RANK" = some s → pyStrip s ≠ [] → pyParseInt s = some n →
      cfgGet (get_env_overrides env).1 "network_dim" = some (CVal.int n)) := by
  have hsound : env_layer_sound (env_mappings.foldl (env_override_step env) []) := by
    refine env_fold_sound env env_mappings [] ⟨?_, ?_⟩
    · intro k v _ hg; simp [cfgGet] at hg
    · intro k v _ hg; simp [cfgGet] at hg
  refine ⟨rfl, ?_, ?_, ?_, ?_⟩
  · exact hsound.1
  · exact hsound.2
  · intro k hk
    exact env_fold_get_none env env_mappings [] k rfl hk
  · intro s n hs hb hp
    have hstep : env_override_step env [] ("RANK", "network_dim") =
        [("network_dim", CVal.int n)] := by
      simp [env_override_step, coerce_env, hs, hb, hp, cfgInsert, cfgErase, int_keys]
    show cfgGet (env_mappings.foldl (env_override_step env) []) "network_dim" =
      some (CVal.int n)
    rw [show env_mappings = ("RANK", "network_dim") :: env_mappings.tail from rfl,
      List.foldl_cons, hstep]
    refine env_fold_get_preserved env env_mappings.tail _ _ _ ?_ (by decide)
    simp [cfgGet]

/-- The environment refuting C4 as stated: `RANK` holds the unparsable
string `"abc"`, everything else is unset. -/
def c4_bad_env : String → Option String :=
  fun v => if v = "RANK" then some "abc" else none

/-- Counterexample to C4 as stated: the unparsable `RANK=abc` is discarded
(the layer is empty), the run does not fail — but the printed-diagnostics
list is empty: no advisory is recorded (`except ValueError: pass`). -/
theorem c4_no_advisory_counterexample :
    get_env_overrides c4_bad_env = ([], []) ∧
    c4_bad_env "RANK" = some "abc" ∧
    pyParseInt "abc" = none := by
  exact ⟨rfl, rfl, rfl⟩

/-- The environment of the witness run: `RANK=48`, everything else unset. -/
def c4_env48 : String → Option String :=
  fun v => if v = "RANK" then some "48" else none

/-- Witness for the amended C4: `RANK=48` coerces and overwrites
`network_dim`, and no diagnostic is printed. -/
theorem c4_env_override_coercion_witness :
    cfgGet (get_env_overrides c4_env48).1 "network_dim" = some (CVal.int 48) ∧
    (get_env_overrides c4_env48).2 = [] := by
  have h := c4_env_override_coercion c4_env48
  exact ⟨h.2.2.2.2 "48" 48 (by rfl) (by decide) (by rfl), h.1⟩

/-! ## Resume flag claim (C9) -/

/-- **C9.** Relative to the pre-resume token list `core`: the
`--network_weights` flag is appended exactly when a nonempty resume path is
supplied and exists on disk (with the resume notice on stderr); a supplied
but missing path leaves the tokens untouched, emits the advisory, and
synthesis still succeeds; an absent or empty path leaves the tokens
untouched with no message; and the resume argument can never make synthesis
fail. -/
theorem c9_resume_flag (config : Config) (paths : Paths) (run_name : String)
    (resume_from : Option String) (fp8 : Bool) (fs : String → Bool)
    (core : List String) (h : build_core config paths run_name fp8 = some core) :
    (∀ rf, resume_from = some rf → rf ≠ "" → fs rf = true →
      build_command config paths run_name resume_from fp8 fs =
        some (core ++ ["--network_weights=" ++ rf], ["[RESUME] Resuming from: " ++ rf])) ∧
    (∀ rf, resume_from = some rf → rf ≠ "" → fs rf = false →
      build_command config paths run_name resume_from fp8 fs =
        some (core, ["WARNING: Resume checkpoint not found: " ++ rf])) ∧
    (resume_from = none →
      build_command config paths run_name resume_from fp8 fs = some (core, [])) ∧
    (resume_from = some "" →
      build_command config paths run_name resume_from fp8 fs = some (core, [])) ∧
    (∀ rf', (build_command config paths run_name rf' fp8 fs).isSome = true) := by
  refine ⟨?_, ?_, ?_, ?_, ?_⟩
  · intro rf hrf hne hfs
    subst hrf
    simp [build_command, h, resume_step, hne, hfs]
  · intro rf hrf hne hfs
    subst hrf
    simp [build_command, h, resume_step, hne, hfs]
  · intro hrf
    subst hrf
    simp [build_command, h, resume_step]
  · intro hrf
    subst hrf
    simp [build_command, h, resume_step]
  · intro rf'
    simp [build_command, h]

/-- The configuration of the C9 witness run. -/
def c9_config : Config := [("network_dim", CVal.int 32)]

/-- Its pre-resume token list. -/
def c9_core : List String :=
  (build_core c9_config default_paths "r" false).getD []

/-- Witness for C9: with `RESUME_FROM=/ck` and the checkpoint absent the
flag is omitted and the advisory emitted; with it present the flag is the
final token. -/
theorem c9_resume_flag_witness :
    build_command c9_config default_paths "r" (some "/ck") false (fun _ => false) =
      some (c9_core, ["WARNING: Resume checkpoint not found: /ck"]) ∧
    build_command c9_config default_paths "r" (some "/ck") false (fun _ => true) =
      some (c9_core ++ ["--network_weights=/ck"], ["[RESUME] Resuming from: /ck"]) := by
  have h1 := c9_resume_flag c9_config default_paths "r" (some "/ck") false
    (fun _ => false) c9_core (by rfl)
  have h2 := c9_resume_flag c9_config default_paths "r" (some "/ck") false
    (fun _ => true) c9_core (by rfl)
  exact ⟨h1.2.1 "/ck" rfl (by decide) rfl, h2.1 "/ck" rfl (by decide) rfl⟩

/-! ## Dataset fingerprint claim (C8) -/

theorem md5_digest_length (msg : List Nat) : (md5_digest msg).length = 16 := by
  unfold md5_digest
  simp [le4]

theorem flatMap_byteHex_length (l : List Nat) :
    (l.flatMap byteHex).length = 2 * l.length := by
  induction l with
  | nil => rfl
  | cons b rest ih =>
    simp only [List.flatMap_cons, List.length_append, List.length_cons, ih, byteHex]
    simp
    omega

theorem md5_hexdigest_length (msg : List Nat) : (md5_hexdigest msg).length = 32 := by
  show ((md5_digest msg).flatMap byteHex).length = 32
  rw [flatMap_byteHex_length, md5_digest_length]

/-- **C8.** The three dataset states are pairwise distinguishable: a missing
directory yields the sentinel `"dataset_not_found"`, an existing directory
with no readable files the sentinel `"empty_dataset"`, and a populated
directory the MD5 hex digest of the sorted `rel:size:mtime` lines joined by
newlines — a 32-character string that can equal neither sentinel. -/
theorem c8_dataset_hash_states (files : List FileEntry) (h : files ≠ []) :
    compute_dataset_hash none = "dataset_not_found" ∧
    compute_dataset_hash (some []) = "empty_dataset" ∧
    "dataset_not_found" ≠ "empty_dataset" ∧
    compute_dataset_hash (some files) =
      md5_hexdigest (utf8Bytes (String.intercalate "\n"
        (sortStrings (files.map file_info_line)))) ∧
    compute_dataset_hash (some files) ≠ "dataset_not_found" ∧
    compute_dataset_hash (some files) ≠ "empty_dataset" := by
  have hmap : files.map file_info_line ≠ [] := by
    cases files with
    | nil => exact absurd rfl h
    | cons a l => simp
  have hval : compute_dataset_hash (some files) =
      md5_hexdigest (utf8Bytes (String.intercalate "\n"
        (sortStrings (files.map file_info_line)))) := by
    show (if files.map file_info_line = [] then "empty_dataset"
      else md5_hexdigest (utf8Bytes (String.intercalate "\n"
        (sortStrings (files.map file_info_line))))) = _
    rw [if_neg hmap]
  have hlen : (compute_dataset_hash (some files)).length = 32 := by
    rw [hval]; exact md5_hexdigest_length _
  refine ⟨rfl, rfl, by decide, hval, ?_, ?_⟩
  · intro he
    rw [he] at hlen
    exact absurd hlen (by decide)
  · intro he
    rw [he] at hlen
    exact absurd hlen (by decide)

/-- Witness for C8 at a one-file dataset. -/
theorem c8_dataset_hash_states_witness :
    compute_dataset_hash (some [⟨"img.png", 100, 5⟩]) ≠ "dataset_not_found" ∧
    compute_dataset_hash (some [⟨"img.png", 100, 5⟩]) ≠ "empty_dataset" := by
  have h := c8_dataset_hash_states [⟨"img.png", 100, 5⟩] (by decide)
  exact ⟨h.2.2.2.2.1, h.2.2.2.2.2⟩
